import Mathlib

/-!
# Verification of the linked-interaction coordinator of the InfoVis dashboard

This file shallowly embeds the interaction-state coordinator of the
Next.js visualization app (the `Home` component in the repository, together
with the country-code resolution of `MapView`) and proves the testable
properties stated for it.

The embedding follows the JavaScript source directly:

* the React `useState` fields of `Home` become the fields of
  `InteractionState`;
* each `useCallback` handler (`handleCountrySelect`,
  `handleRemoveComparison`, `handleClearComparisons`, `handleYearChange`,
  `handleYearRangeChange`, `handleSubfieldSelect`, `handleCountryHover`,
  and the raw setter `setViewMode`) becomes a pure transition function
  `InteractionState → payload → InteractionState`;
* `prev.slice(-4)` is `List.drop (length - 4)` (keep the last four);
* JavaScript `===` against a possibly-`null` selection is equality of
  `Option String`; truthiness tests on strings (`if (code)`,
  `if (error)`) are explicit emptiness tests.
-/

/-- The interaction state owned by the `Home` component: one field per
`useState` hook of the coordinator. -/
structure InteractionState where
  selectedYear : Int
  yearRange : Int × Int
  selectedCountry : Option String
  comparedCountries : List String
  selectedSubfield : Option String
  hoveredCountry : Option String
  viewMode : String
  deriving Repr, DecidableEq

/-- The initial interaction state created when `Home` mounts:
`selectedYear = 2024`, `yearRange = [2010, 2025]`, no selection, no
comparisons, no subfield, no hover, absolute view mode. -/
def initialState : InteractionState :=
  { selectedYear := 2024
    yearRange := (2010, 2025)
    selectedCountry := none
    comparedCountries := []
    selectedSubfield := none
    hoveredCountry := none
    viewMode := "absolute" }

/-- `handleCountrySelect` from `Home`:
toggle off when the clicked code equals the current selection; otherwise
select it and, when absent from the comparison list, append it to the
last four entries (`prev.slice(-4)` keeps at most the five most recent). -/
def handleCountrySelect (s : InteractionState) (countryCode : String) :
    InteractionState :=
  if some countryCode = s.selectedCountry then
    { s with selectedCountry := none }
  else
    let s' := { s with selectedCountry := some countryCode }
    if countryCode ∈ s.comparedCountries then s'
    else
      { s' with comparedCountries :=
          s.comparedCountries.drop (s.comparedCountries.length - 4)
            ++ [countryCode] }

/-- `handleRemoveComparison` from `Home`: filter the code out of the
comparison list; clear the selection when it was the removed code. -/
def handleRemoveComparison (s : InteractionState) (countryCode : String) :
    InteractionState :=
  let s' := { s with comparedCountries :=
      s.comparedCountries.filter (fun c => c ≠ countryCode) }
  if s.selectedCountry = some countryCode then
    { s' with selectedCountry := none }
  else s'

/-- `handleClearComparisons` from `Home`: empty the comparison list and
clear the selection. -/
def handleClearComparisons (s : InteractionState) : InteractionState :=
  { s with comparedCountries := [], selectedCountry := none }

/-- `handleYearChange` from `Home`: store the incoming year unchanged. -/
def handleYearChange (s : InteractionState) (year : Int) : InteractionState :=
  { s with selectedYear := year }

/-- `handleYearRangeChange` from `Home`: store the incoming range
unchanged. -/
def handleYearRangeChange (s : InteractionState) (range : Int × Int) :
    InteractionState :=
  { s with yearRange := range }

/-- `handleSubfieldSelect` from `Home`: toggle — clear when the incoming
subfield equals the current one, otherwise set it. -/
def handleSubfieldSelect (s : InteractionState) (subfield : String) :
    InteractionState :=
  { s with selectedSubfield :=
      if some subfield = s.selectedSubfield then none else some subfield }

/-- `handleCountryHover` from `Home`: store the incoming hover target
(`null` on pointer-leave) unchanged. -/
def handleCountryHover (s : InteractionState) (countryCode : Option String) :
    InteractionState :=
  { s with hoveredCountry := countryCode }

/-- `setViewMode`, passed to `Controls` as `onViewModeChange` without a
wrapper: store the incoming mode string unchanged. -/
def handleViewModeChange (s : InteractionState) (mode : String) :
    InteractionState :=
  { s with viewMode := mode }

/-- The events the three views can emit back to the coordinator, one per
handler of `Home`. -/
inductive Event where
  | selectCountry (code : String)
  | removeComparison (code : String)
  | clearComparisons
  | setYear (y : Int)
  | setYearRange (range : Int × Int)
  | selectSubfield (name : String)
  | setViewMode (mode : String)
  | hoverCountry (code : Option String)
  deriving Repr, DecidableEq

/-- The coordinator's transition function: dispatch one event to its
handler. -/
def step (s : InteractionState) : Event → InteractionState
  | .selectCountry code => handleCountrySelect s code
  | .removeComparison code => handleRemoveComparison s code
  | .clearComparisons => handleClearComparisons s
  | .setYear y => handleYearChange s y
  | .setYearRange range => handleYearRangeChange s range
  | .selectSubfield name => handleSubfieldSelect s name
  | .setViewMode mode => handleViewModeChange s mode
  | .hoverCountry code => handleCountryHover s code

/-- Run a sequence of events from the initial state; the reachable states
are exactly the values of `run`. -/
def run (es : List Event) : InteractionState :=
  es.foldl step initialState

/-- A concrete reachable state used to instantiate theorems: "US" and
"CN" compared, "US" selected (reached by selecting "US", then "CN", then
"US"… here simply by `run`). -/
def stateUSCN : InteractionState :=
  run [Event.selectCountry "US", Event.selectCountry "CN",
    Event.selectCountry "CN", Event.selectCountry "US"]

/-- The §3 invariant on the selection: when `selectedCountry` is set it
appears in `comparedCountries`. -/
def SelectionInvariant (s : InteractionState) : Prop :=
  ∀ c, s.selectedCountry = some c → c ∈ s.comparedCountries

/-! ## The startup data load of `Home`

`loadData` fetches the five static JSON files in parallel, throws when
any response has a non-ok status, parses the five bodies, and stores
them; its `catch` stores the exception message in the `error` state,
which the render branch of `Home` turns into the blocking error
screen. -/

/-- One of the five `fetch` promises of `loadData` as the `await`
observes it: rejected with an exception message, or resolved to a
response carrying its `ok` status flag and the outcome of `.json()` on
its body (a payload, or a rejection message for an unparsable body). -/
inductive FetchResult where
  | rejected (msg : String)
  | resolved (ok : Bool) (json : Except String String)
  deriving Repr

/-- `await` of one fetch inside `Promise.all`: a rejection propagates to
the enclosing `catch`, a resolution yields the response. -/
def settle : FetchResult → Except String (Bool × Except String String)
  | .rejected msg => .error msg
  | .resolved ok json => .ok (ok, json)

/-- The five parsed payloads `Home` stores after a successful load. -/
structure LoadedData where
  countryYearData : String
  countrySummary : String
  subfieldData : String
  nodeLinkData : String
  worldGeo : String
  deriving Repr, DecidableEq

/-- `loadData` from `Home`: await the five fetches (`Promise.all` — the
first rejection aborts into the catch), throw the fixed message when any
response has a non-ok status, then await the five `.json()` parses
(again, any rejection aborts). -/
def loadData (cyRes summaryRes subfieldRes nodeLinkRes geoRes : FetchResult) :
    Except String LoadedData :=
  match settle cyRes with
  | .error msg => .error msg
  | .ok (ok1, j1) =>
    match settle summaryRes with
    | .error msg => .error msg
    | .ok (ok2, j2) =>
      match settle subfieldRes with
      | .error msg => .error msg
      | .ok (ok3, j3) =>
        match settle nodeLinkRes with
        | .error msg => .error msg
        | .ok (ok4, j4) =>
          match settle geoRes with
          | .error msg => .error msg
          | .ok (ok5, j5) =>
            if !ok1 || !ok2 || !ok3 || !ok4 || !ok5 then
              .error "Failed to load one or more data files"
            else
              match j1 with
              | .error msg => .error msg
              | .ok cy =>
                match j2 with
                | .error msg => .error msg
                | .ok summary =>
                  match j3 with
                  | .error msg => .error msg
                  | .ok subfield =>
                    match j4 with
                    | .error msg => .error msg
                    | .ok nodeLink =>
                      match j5 with
                      | .error msg => .error msg
                      | .ok geo =>
                        .ok ⟨cy, summary, subfield, nodeLink, geo⟩

/-- What `Home` renders: the loading spinner, the blocking data-loading
error screen, or the dashboard with the three views. -/
inductive Screen where
  | loadingScreen
  | errorScreen (msg : String)
  | dashboard
  deriving Repr, DecidableEq

/-- The render branches of `Home`: loading first, then a truthy `error`
(JavaScript `if (error)`: set and non-empty), else the dashboard. -/
def renderHome (loading : Bool) (error : Option String) : Screen :=
  if loading then .loadingScreen
  else
    match error with
    | some msg => if msg = "" then .dashboard else .errorScreen msg
    | none => .dashboard

/-- The screen `Home` shows once `loadData` has settled: both branches
clear `loading`; only the catch branch stores an error message. -/
def homeAfterLoad
    (cyRes summaryRes subfieldRes nodeLinkRes geoRes : FetchResult) :
    Screen :=
  match loadData cyRes summaryRes subfieldRes nodeLinkRes geoRes with
  | .error msg => renderHome false (some msg)
  | .ok _ => renderHome false none

/-- A fetch that resolved with a success status. -/
def fetchResolvedOk : FetchResult → Bool
  | .resolved ok _ => ok
  | .rejected _ => false

/-- A fetch that fully succeeded: resolved, ok status, body parsed. -/
def fetchSuccess : FetchResult → Bool
  | .resolved true (.ok _) => true
  | _ => false

/-- A fetch that failed outright or returned a non-success status. -/
def fetchFailed : FetchResult → Bool
  | .rejected _ => true
  | .resolved ok _ => !ok

/-- Every message a fetch can surface is non-empty — true of browser
`fetch`/JSON exceptions, whose `Error.message` is never the empty
string. -/
def MsgsNonEmpty : FetchResult → Prop
  | .rejected msg => msg ≠ ""
  | .resolved _ (.error msg) => msg ≠ ""
  | .resolved _ (.ok _) => True

/-! ## Country-code resolution in `MapView` -/

/-- The ISO 3166-1 numeric → alpha-2 table `NUMERIC_TO_ALPHA2` of
`MapView`, keys exactly as in the source. -/
def NUMERIC_TO_ALPHA2 : List (String × String) := [
  ("004", "AF"), ("008", "AL"), ("012", "DZ"), ("020", "AD"), ("024", "AO"),
  ("028", "AG"), ("032", "AR"), ("036", "AU"), ("040", "AT"), ("044", "BS"),
  ("048", "BH"), ("050", "BD"), ("051", "AM"), ("056", "BE"), ("064", "BT"),
  ("068", "BO"), ("070", "BA"), ("072", "BW"), ("076", "BR"), ("084", "BZ"),
  ("090", "SB"), ("096", "BN"), ("100", "BG"), ("104", "MM"), ("108", "BI"),
  ("112", "BY"), ("116", "KH"), ("120", "CM"), ("124", "CA"), ("140", "CF"),
  ("144", "LK"), ("148", "TD"), ("152", "CL"), ("156", "CN"), ("158", "TW"),
  ("170", "CO"), ("178", "CG"), ("180", "CD"), ("188", "CR"), ("191", "HR"),
  ("192", "CU"), ("196", "CY"), ("203", "CZ"), ("204", "BJ"), ("208", "DK"),
  ("214", "DO"), ("218", "EC"), ("222", "SV"), ("226", "GQ"), ("231", "ET"),
  ("232", "ER"), ("233", "EE"), ("242", "FJ"), ("246", "FI"), ("250", "FR"),
  ("262", "DJ"), ("266", "GA"), ("268", "GE"), ("270", "GM"), ("275", "PS"),
  ("276", "DE"), ("288", "GH"), ("300", "GR"), ("320", "GT"), ("324", "GN"),
  ("328", "GY"), ("332", "HT"), ("340", "HN"), ("344", "HK"), ("348", "HU"),
  ("352", "IS"), ("356", "IN"), ("360", "ID"), ("364", "IR"), ("368", "IQ"),
  ("372", "IE"), ("376", "IL"), ("380", "IT"), ("384", "CI"), ("388", "JM"),
  ("392", "JP"), ("398", "KZ"), ("400", "JO"), ("404", "KE"), ("408", "KP"),
  ("410", "KR"), ("414", "KW"), ("417", "KG"), ("418", "LA"), ("422", "LB"),
  ("426", "LS"), ("428", "LV"), ("430", "LR"), ("434", "LY"), ("440", "LT"),
  ("442", "LU"), ("450", "MG"), ("454", "MW"), ("458", "MY"), ("462", "MV"),
  ("466", "ML"), ("470", "MT"), ("478", "MR"), ("480", "MU"), ("484", "MX"),
  ("496", "MN"), ("498", "MD"), ("499", "ME"), ("504", "MA"), ("508", "MZ"),
  ("512", "OM"), ("516", "NA"), ("524", "NP"), ("528", "NL"), ("540", "NC"),
  ("548", "VU"), ("554", "NZ"), ("558", "NI"), ("562", "NE"), ("566", "NG"),
  ("578", "NO"), ("586", "PK"), ("591", "PA"), ("598", "PG"), ("600", "PY"),
  ("604", "PE"), ("608", "PH"), ("616", "PL"), ("620", "PT"), ("630", "PR"),
  ("634", "QA"), ("642", "RO"), ("643", "RU"), ("646", "RW"), ("682", "SA"),
  ("686", "SN"), ("688", "RS"), ("694", "SL"), ("702", "SG"), ("703", "SK"),
  ("704", "VN"), ("705", "SI"), ("706", "SO"), ("710", "ZA"), ("716", "ZW"),
  ("724", "ES"), ("728", "SS"), ("729", "SD"), ("732", "EH"), ("740", "SR"),
  ("752", "SE"), ("756", "CH"), ("760", "SY"), ("762", "TJ"), ("764", "TH"),
  ("768", "TG"), ("780", "TT"), ("784", "AE"), ("788", "TN"), ("792", "TR"),
  ("795", "TM"), ("800", "UG"), ("804", "UA"), ("807", "MK"), ("818", "EG"),
  ("826", "GB"), ("834", "TZ"), ("840", "US"), ("854", "BF"), ("858", "UY"),
  ("860", "UZ"), ("862", "VE"), ("887", "YE"), ("894", "ZM")]

/-- The identification data of one TopoJSON feature as `getCountryCode`
reads it: the optional `properties.ISO_A2` string, the optional
`feature.id`, and the optional `properties.id`. -/
structure GeoFeature where
  iso_a2 : Option String
  featureId : Option String
  propertiesId : Option String
  deriving Repr, DecidableEq

/-- JavaScript truthiness of an optional string: present and
non-empty. -/
def truthy : Option String → Bool
  | none => false
  | some s => s != ""

/-- `getCountryCode` from `MapView`: use `properties.ISO_A2` when truthy
and not the placeholder "-99"; otherwise fall back to
`feature.id || feature.properties?.id` looked up in the numeric table;
otherwise null. -/
def getCountryCode (feature : GeoFeature) : Option String :=
  if truthy feature.iso_a2 && feature.iso_a2 != some "-99" then
    feature.iso_a2
  else
    let numericId :=
      if truthy feature.featureId then feature.featureId
      else feature.propertiesId
    match numericId with
    | none => none
    | some nid =>
      if nid != "" then
        match NUMERIC_TO_ALPHA2.lookup nid with
        | some a2 => if a2 != "" then some a2 else none
        | none => none
      else none

/-- The click handler `MapView` attaches to every country path: resolve
the feature's code and forward a truthy result to `onCountrySelect`
(which is `handleCountrySelect`); otherwise do nothing. -/
def countryPathClick (s : InteractionState) (feature : GeoFeature) :
    InteractionState :=
  match getCountryCode feature with
  | some code => if code != "" then handleCountrySelect s code else s
  | none => s

/-- A concrete feature whose code cannot be resolved: placeholder
ISO_A2 and an id absent from the numeric table. -/
def unresolvableFeature : GeoFeature :=
  { iso_a2 := some "-99", featureId := some "900", propertiesId := none }

/-- A concrete fully successful fetch: resolved, ok status, parsable
body. -/
def okFetch : FetchResult := .resolved true (.ok "[]")

theorem handleCountrySelect_length_le (s : InteractionState) (c : String)
    (h : s.comparedCountries.length ≤ 5) :
    (handleCountrySelect s c).comparedCountries.length ≤ 5 := by
  unfold handleCountrySelect
  split
  · exact h
  · split
    · exact h
    · simp only [List.length_append, List.length_drop, List.length_cons,
        List.length_nil]
      omega

theorem step_length_le (s : InteractionState) (e : Event)
    (h : s.comparedCountries.length ≤ 5) :
    (step s e).comparedCountries.length ≤ 5 := by
  cases e with
  | selectCountry code => exact handleCountrySelect_length_le s code h
  | removeComparison code =>
      simp only [step, handleRemoveComparison]
      split <;> simpa using le_trans (List.length_filter_le _ _) h
  | clearComparisons => simp [step, handleClearComparisons]
  | setYear y => exact h
  | setYearRange range => exact h
  | selectSubfield name => exact h
  | setViewMode mode => exact h
  | hoverCountry code => exact h

theorem foldl_step_length_le (es : List Event) (s : InteractionState)
    (h : s.comparedCountries.length ≤ 5) :
    (es.foldl step s).comparedCountries.length ≤ 5 := by
  induction es generalizing s with
  | nil => exact h
  | cons e es ih => exact ih _ (step_length_le s e h)

theorem foldl_select_length_le (cs : List String) (s : InteractionState)
    (h : s.comparedCountries.length ≤ 5) :
    (cs.foldl handleCountrySelect s).comparedCountries.length ≤ 5 := by
  induction cs generalizing s with
  | nil => exact h
  | cons c cs ih => exact ih _ (handleCountrySelect_length_le s c h)

/-- C1: for every reachable interaction state (`run es`) and every
sequence `cs` of `selectCountry` events applied to it, the length of
`comparedCountries` never exceeds 5.  Since `cs` ranges over all
sequences, every prefix of a longer sequence is covered, so the bound
holds at every intermediate state as well. -/
theorem selectCountry_comparedCountries_le_five
    (es : List Event) (cs : List String) :
    (cs.foldl handleCountrySelect (run es)).comparedCountries.length ≤ 5 :=
  foldl_select_length_le cs (run es)
    (foldl_step_length_le es initialState (by decide))

/-- C2: every coordinator operation, applied to a state satisfying the
selection invariant, yields a state satisfying it: whenever
`selectedCountry` is set afterwards, it is an element of
`comparedCountries`. -/
theorem step_preserves_SelectionInvariant (s : InteractionState) (e : Event)
    (h : SelectionInvariant s) : SelectionInvariant (step s e) := by
  cases e with
  | selectCountry code =>
      simp only [step]
      unfold handleCountrySelect
      split
      · intro c hc
        simp at hc
      · split
        · intro c hc
          simp only at hc
          rename_i hmem
          cases hc
          simpa using hmem
        · intro c hc
          simp only at hc
          cases hc
          simp
  | removeComparison code =>
      simp only [step]
      unfold handleRemoveComparison
      split
      · intro c hc
        simp at hc
      · intro c hc
        simp only at hc
        rename_i hne
        have hmem := h c hc
        have hcc : c ≠ code := by
          intro heq
          exact hne (heq ▸ hc)
        simp only [List.mem_filter, decide_eq_true_eq]
        exact ⟨hmem, hcc⟩
  | clearComparisons =>
      intro c hc
      simp [step, handleClearComparisons] at hc
  | setYear y => intro c hc; exact h c hc
  | setYearRange range => intro c hc; exact h c hc
  | selectSubfield name => intro c hc; exact h c hc
  | setViewMode mode => intro c hc; exact h c hc
  | hoverCountry code => intro c hc; exact h c hc

/-- Witness for C2 at a concrete state: the initial state satisfies the
invariant and so does the result of selecting a country in it. -/
theorem step_preserves_SelectionInvariant_witness :
    SelectionInvariant initialState ∧
      SelectionInvariant (step initialState (Event.selectCountry "US")) := by
  have h0 : SelectionInvariant initialState := by
    intro c hc
    simp [initialState] at hc
  exact ⟨h0, step_preserves_SelectionInvariant initialState
    (Event.selectCountry "US") h0⟩

/-- C3 counterexample: `handleYearChange` performs no clamping — fed the
out-of-range year 2030 it stores 2030, not the bound 2025 the claim
requires. -/
theorem setYear_no_clamp_counterexample :
    (handleYearChange initialState 2030).selectedYear = 2030 ∧
      (handleYearChange initialState 2030).selectedYear ≠ 2025 := by
  constructor
  · rfl
  · decide

/-- C3 amended: `setYear(y)` stores y in `selectedYear` unchanged, with no
clamping into [2010, 2025]; every other field is untouched.  (The range
constraint is enforced only upstream by the slider's min/max bounds.) -/
theorem setYear_stores_year_unclamped (s : InteractionState) (y : Int) :
    handleYearChange s y = { s with selectedYear := y } := rfl

/-- C4 counterexample: `handleYearRangeChange` performs no validation —
fed the reversed pair (2025, 2010) it changes the state, storing that
pair, instead of the no-op the claim requires. -/
theorem setYearRange_no_validation_counterexample :
    handleYearRangeChange initialState (2025, 2010) ≠ initialState ∧
      (handleYearRangeChange initialState (2025, 2010)).yearRange
        = (2025, 2010) := by
  constructor
  · decide
  · rfl

/-- C4 amended: `setYearRange(range)` stores the incoming pair in
`yearRange` unconditionally — even when start > end or a bound lies
outside [2010, 2025] — and touches no other field. -/
theorem setYearRange_stores_range_unvalidated (s : InteractionState)
    (range : Int × Int) :
    handleYearRangeChange s range = { s with yearRange := range } := rfl

/-- C5: from a full comparison list `[c1, c2, c3, c4, c5]`, selecting a
fresh country `f` (not compared, not currently selected) evicts the
oldest entry and appends `f`: the list becomes `[c2, c3, c4, c5, f]` and
`f` becomes the selection. -/
theorem selectCountry_evicts_oldest (s : InteractionState)
    (c1 c2 c3 c4 c5 f : String)
    (hc : s.comparedCountries = [c1, c2, c3, c4, c5])
    (hf : f ∉ s.comparedCountries)
    (hsel : some f ≠ s.selectedCountry) :
    (handleCountrySelect s f).comparedCountries = [c2, c3, c4, c5, f] ∧
      (handleCountrySelect s f).selectedCountry = some f := by
  unfold handleCountrySelect
  rw [if_neg hsel, if_neg hf]
  simp [hc]

/-- Witness for C5 at the concrete scenario of the spec:
comparedCountries = ["A","B","C","D","E"], selectCountry("F"). -/
theorem selectCountry_evicts_oldest_witness :
    (handleCountrySelect
        { initialState with comparedCountries := ["A", "B", "C", "D", "E"] }
        "F").comparedCountries = ["B", "C", "D", "E", "F"] ∧
      (handleCountrySelect
        { initialState with comparedCountries := ["A", "B", "C", "D", "E"] }
        "F").selectedCountry = some "F" :=
  selectCountry_evicts_oldest _ "A" "B" "C" "D" "E" "F" rfl (by decide)
    (by decide)

theorem handleCountrySelect_toggle_off (s : InteractionState) (x : String)
    (h : s.selectedCountry = some x) :
    handleCountrySelect s x = { s with selectedCountry := none } := by
  unfold handleCountrySelect
  rw [if_pos h.symm]

theorem handleCountrySelect_selects (s : InteractionState) (x : String)
    (h : some x ≠ s.selectedCountry) :
    (handleCountrySelect s x).selectedCountry = some x ∧
      x ∈ (handleCountrySelect s x).comparedCountries := by
  unfold handleCountrySelect
  rw [if_neg h]
  split
  · next hmem => exact ⟨rfl, by simpa using hmem⟩
  · exact ⟨rfl, by simp⟩

/-- C6: selecting a country `x` that is not the current selection and
then selecting it again leaves `selectedCountry = none` after the second
call, keeps `x` in `comparedCountries`, and the second call changes no
field other than `selectedCountry`. -/
theorem selectCountry_twice_clears_selection (s : InteractionState)
    (x : String) (hsel : some x ≠ s.selectedCountry) :
    (handleCountrySelect (handleCountrySelect s x) x).selectedCountry
        = none ∧
      x ∈ (handleCountrySelect (handleCountrySelect s x) x).comparedCountries ∧
      handleCountrySelect (handleCountrySelect s x) x
        = { handleCountrySelect s x with selectedCountry := none } := by
  obtain ⟨h1, h2⟩ := handleCountrySelect_selects s x hsel
  have h3 := handleCountrySelect_toggle_off (handleCountrySelect s x) x h1
  refine ⟨by rw [h3], ?_, h3⟩
  rw [h3]
  simpa using h2

/-- Witness for C6 at a concrete input: double-click on "US" from the
initial state. -/
theorem selectCountry_twice_clears_selection_witness :
    (handleCountrySelect (handleCountrySelect initialState "US")
        "US").selectedCountry = none ∧
      "US" ∈ (handleCountrySelect (handleCountrySelect initialState "US")
        "US").comparedCountries ∧
      handleCountrySelect (handleCountrySelect initialState "US") "US"
        = { handleCountrySelect initialState "US" with
              selectedCountry := none } :=
  selectCountry_twice_clears_selection initialState "US" (by decide)

/-- C7: `removeComparison(x)` removes x from `comparedCountries`, and
when x was the `selectedCountry` the resulting selection is none. -/
theorem removeComparison_removes_and_clears (s : InteractionState)
    (x : String) :
    x ∉ (handleRemoveComparison s x).comparedCountries ∧
      (s.selectedCountry = some x →
        (handleRemoveComparison s x).selectedCountry = none) := by
  unfold handleRemoveComparison
  constructor
  · split <;> simp [List.mem_filter]
  · intro hx
    rw [if_pos hx]

/-- Witness for C7 at a concrete input: removing the selected country
"US" from the reachable state comparing ["US", "CN"] with "US"
selected. -/
theorem removeComparison_removes_and_clears_witness :
    "US" ∉ (handleRemoveComparison stateUSCN "US").comparedCountries ∧
      (stateUSCN.selectedCountry = some "US" →
        (handleRemoveComparison stateUSCN "US").selectedCountry = none) :=
  removeComparison_removes_and_clears stateUSCN "US"

/-- C8: `selectSubfield` is a toggle — it sets `selectedSubfield` to the
incoming name when that differs from the current value and clears it when
they are equal; hence applying it twice from a state whose subfield is
none returns the subfield to none. -/
theorem selectSubfield_toggle_roundtrip (s : InteractionState)
    (name : String) :
    (handleSubfieldSelect s name).selectedSubfield
        = (if some name = s.selectedSubfield then none else some name) ∧
      (s.selectedSubfield = none →
        (handleSubfieldSelect (handleSubfieldSelect s name)
          name).selectedSubfield = none) := by
  constructor
  · rfl
  · intro h
    simp [handleSubfieldSelect, h]

/-- Witness for C8 at a concrete input: toggling "Computer Vision" twice
from the initial state (whose subfield is none). -/
theorem selectSubfield_toggle_roundtrip_witness :
    (handleSubfieldSelect initialState "Computer Vision").selectedSubfield
        = (if some "Computer Vision" = initialState.selectedSubfield then
            none else some "Computer Vision") ∧
      (initialState.selectedSubfield = none →
        (handleSubfieldSelect
          (handleSubfieldSelect initialState "Computer Vision")
          "Computer Vision").selectedSubfield = none) :=
  selectSubfield_toggle_roundtrip initialState "Computer Vision"

theorem fetchFailed_eq_not_resolvedOk (r : FetchResult) :
    fetchFailed r = !fetchResolvedOk r := by
  cases r with
  | rejected msg => rfl
  | resolved ok json => rfl

theorem fetchSuccess_shape (r : FetchResult) (h : fetchSuccess r = true) :
    ∃ body, r = .resolved true (.ok body) := by
  cases r with
  | rejected msg => simp [fetchSuccess] at h
  | resolved ok json =>
      cases ok with
      | false => simp [fetchSuccess] at h
      | true =>
          cases json with
          | error msg => simp [fetchSuccess] at h
          | ok body => exact ⟨body, rfl⟩

theorem loadData_error_of_failed (r1 r2 r3 r4 r5 : FetchResult)
    (h1 : MsgsNonEmpty r1) (h2 : MsgsNonEmpty r2) (h3 : MsgsNonEmpty r3)
    (h4 : MsgsNonEmpty r4) (h5 : MsgsNonEmpty r5)
    (hf : fetchFailed r1 = true ∨ fetchFailed r2 = true ∨
      fetchFailed r3 = true ∨ fetchFailed r4 = true ∨ fetchFailed r5 = true) :
    ∃ msg, msg ≠ "" ∧ loadData r1 r2 r3 r4 r5 = .error msg := by
  rcases r1 with m1 | ⟨ok1, j1⟩
  · exact ⟨m1, h1, rfl⟩
  rcases r2 with m2 | ⟨ok2, j2⟩
  · exact ⟨m2, h2, rfl⟩
  rcases r3 with m3 | ⟨ok3, j3⟩
  · exact ⟨m3, h3, rfl⟩
  rcases r4 with m4 | ⟨ok4, j4⟩
  · exact ⟨m4, h4, rfl⟩
  rcases r5 with m5 | ⟨ok5, j5⟩
  · exact ⟨m5, h5, rfl⟩
  refine ⟨"Failed to load one or more data files", by decide, ?_⟩
  have hcond : (!ok1 || !ok2 || !ok3 || !ok4 || !ok5) = true := by
    simp only [fetchFailed] at hf
    rcases hf with h | h | h | h | h <;> simp [h]
  simp [loadData, settle, hcond]

theorem homeAfterLoad_error_of_failed (r1 r2 r3 r4 r5 : FetchResult)
    (h1 : MsgsNonEmpty r1) (h2 : MsgsNonEmpty r2) (h3 : MsgsNonEmpty r3)
    (h4 : MsgsNonEmpty r4) (h5 : MsgsNonEmpty r5)
    (hf : fetchFailed r1 = true ∨ fetchFailed r2 = true ∨
      fetchFailed r3 = true ∨ fetchFailed r4 = true ∨ fetchFailed r5 = true) :
    ∃ msg, homeAfterLoad r1 r2 r3 r4 r5 = .errorScreen msg := by
  obtain ⟨m, hm, he⟩ := loadData_error_of_failed r1 r2 r3 r4 r5 h1 h2 h3 h4 h5 hf
  exact ⟨m, by simp [homeAfterLoad, he, renderHome, hm]⟩

/-- C9: the application becomes ready (renders the dashboard) only when
all five static fetches resolved with a success status; whenever one
fetch fails or returns a non-success status, the result is the blocking
error screen (so no view is rendered from partial data); and when all
five fully succeed the dashboard is rendered.  The load runs exactly
once, so there is no retry in the model. -/
theorem home_ready_iff_all_fetches_ok (r1 r2 r3 r4 r5 : FetchResult)
    (h1 : MsgsNonEmpty r1) (h2 : MsgsNonEmpty r2) (h3 : MsgsNonEmpty r3)
    (h4 : MsgsNonEmpty r4) (h5 : MsgsNonEmpty r5) :
    (homeAfterLoad r1 r2 r3 r4 r5 = .dashboard →
      fetchResolvedOk r1 = true ∧ fetchResolvedOk r2 = true ∧
        fetchResolvedOk r3 = true ∧ fetchResolvedOk r4 = true ∧
        fetchResolvedOk r5 = true) ∧
      ((fetchFailed r1 = true ∨ fetchFailed r2 = true ∨
          fetchFailed r3 = true ∨ fetchFailed r4 = true ∨
          fetchFailed r5 = true) →
        ∃ msg, homeAfterLoad r1 r2 r3 r4 r5 = .errorScreen msg) ∧
      (fetchSuccess r1 = true ∧ fetchSuccess r2 = true ∧
          fetchSuccess r3 = true ∧ fetchSuccess r4 = true ∧
          fetchSuccess r5 = true →
        homeAfterLoad r1 r2 r3 r4 r5 = .dashboard) := by
  refine ⟨?_, ?_, ?_⟩
  · intro hd
    by_contra hno
    simp only [not_and_or, Bool.not_eq_true] at hno
    have hfail : fetchFailed r1 = true ∨ fetchFailed r2 = true ∨
        fetchFailed r3 = true ∨ fetchFailed r4 = true ∨
        fetchFailed r5 = true := by
      rcases hno with h | h | h | h | h
      · exact Or.inl (by simp [fetchFailed_eq_not_resolvedOk, h])
      · exact Or.inr (Or.inl (by simp [fetchFailed_eq_not_resolvedOk, h]))
      · exact Or.inr (Or.inr (Or.inl
          (by simp [fetchFailed_eq_not_resolvedOk, h])))
      · exact Or.inr (Or.inr (Or.inr (Or.inl
          (by simp [fetchFailed_eq_not_resolvedOk, h]))))
      · exact Or.inr (Or.inr (Or.inr (Or.inr
          (by simp [fetchFailed_eq_not_resolvedOk, h]))))
    obtain ⟨m, hm⟩ :=
      homeAfterLoad_error_of_failed r1 r2 r3 r4 r5 h1 h2 h3 h4 h5 hfail
    rw [hd] at hm
    cases hm
  · exact homeAfterLoad_error_of_failed r1 r2 r3 r4 r5 h1 h2 h3 h4 h5
  · rintro ⟨hs1, hs2, hs3, hs4, hs5⟩
    obtain ⟨b1, rfl⟩ := fetchSuccess_shape r1 hs1
    obtain ⟨b2, rfl⟩ := fetchSuccess_shape r2 hs2
    obtain ⟨b3, rfl⟩ := fetchSuccess_shape r3 hs3
    obtain ⟨b4, rfl⟩ := fetchSuccess_shape r4 hs4
    obtain ⟨b5, rfl⟩ := fetchSuccess_shape r5 hs5
    rfl

/-- Witness for C9 at a concrete input: five fetches that resolved ok
with parsable bodies; the hypotheses (non-empty exception messages) hold
trivially and the dashboard is rendered. -/
theorem home_ready_iff_all_fetches_ok_witness :
    (homeAfterLoad okFetch okFetch okFetch okFetch okFetch = .dashboard →
      fetchResolvedOk okFetch = true ∧ fetchResolvedOk okFetch = true ∧
        fetchResolvedOk okFetch = true ∧ fetchResolvedOk okFetch = true ∧
        fetchResolvedOk okFetch = true) ∧
      ((fetchFailed okFetch = true ∨ fetchFailed okFetch = true ∨
          fetchFailed okFetch = true ∨ fetchFailed okFetch = true ∨
          fetchFailed okFetch = true) →
        ∃ msg, homeAfterLoad okFetch okFetch okFetch okFetch okFetch
          = .errorScreen msg) ∧
      (fetchSuccess okFetch = true ∧ fetchSuccess okFetch = true ∧
          fetchSuccess okFetch = true ∧ fetchSuccess okFetch = true ∧
          fetchSuccess okFetch = true →
        homeAfterLoad okFetch okFetch okFetch okFetch okFetch
          = .dashboard) :=
  home_ready_iff_all_fetches_ok okFetch okFetch okFetch okFetch okFetch
    True.intro True.intro True.intro True.intro True.intro

/-- C10: a click on a map feature whose country code cannot be resolved
(`getCountryCode` returns null) performs no `selectCountry` transition:
the interaction state is returned unchanged. -/
theorem unresolvable_feature_click_noop (s : InteractionState)
    (feature : GeoFeature) (h : getCountryCode feature = none) :
    countryPathClick s feature = s := by
  simp [countryPathClick, h]

/-- Witness for C10 at a concrete input: a feature with the "-99"
ISO_A2 placeholder and the numeric id "900", which is absent from the
table; clicking it leaves the initial state unchanged. -/
theorem unresolvable_feature_click_noop_witness :
    getCountryCode unresolvableFeature = none ∧
      countryPathClick initialState unresolvableFeature = initialState :=
  ⟨rfl, unresolvable_feature_click_noop initialState unresolvableFeature rfl⟩
